import Mathlib

/-!
Verification of the ingest-logger notification sink
(src/ingest_logger/ingest_logger.py) against its design spec.

The Python module is shallowly embedded below:
pure batching logic becomes Lean functions over lists of strings,
the stateful SlackHandler becomes explicit state passing, and the
external collaborators (the Slack WebClient and the logging
framework) are modelled through the interfaces the spec assigns
them (post returns success or an error detail; the framework
dispatches a record to a handler only when the record level
reaches the handler level).
-/

namespace IngestLoggerModel

/-- Result of one Notifier call, the external interface the spec gives the
Slack client: chat_postMessage either succeeds or fails with a detail
string (the SlackApiError response detail caught by the source). -/
inductive SlackResult where
  | ok : SlackResult
  | apiError (detail : String) : SlackResult
deriving DecidableEq, Repr

/-- The loop body of SlackHandler.flush, embedded structurally: it walks the
drained messages, keeping the accumulated batch (the local variable
messages) and its running length (current_length), and returns the list of
batches handed to _send_messages_to_slack, in call order.  The overflow
branch emits the accumulated batch unconditionally, exactly as the source
does, even when that batch is still empty. -/
def flushBatchesAux (cap : Nat) : List String → List String → Nat → List (List String)
  | [], acc, _ => if acc = [] then [] else [acc]
  | m :: rest, acc, cur =>
      if cur + m.length + 1 > cap then
        acc :: flushBatchesAux cap rest [m] m.length
      else
        flushBatchesAux cap rest (acc ++ [m]) (cur + m.length + 1)

/-- The batches produced by SlackHandler.flush from one drained queue:
the loop starts with an empty batch and running length 0. -/
def flushBatches (cap : Nat) (msgs : List String) : List (List String) :=
  flushBatchesAux cap msgs [] 0

/-- The text handed to chat_postMessage for one batch:
the source joins the batch with a newline separator. -/
def batchText (b : List String) : String :=
  String.intercalate "\n" b

/-- The byte accounting of the spec data model for one batch:
sum of len(m) + 1 over the batch members. -/
def sumLenPlus1 (b : List String) : Nat :=
  (b.map (fun m => m.length + 1)).sum

/-- The serialized size of a batch as the spec counts it for the cap
property: message lengths plus one separator byte between consecutive
messages. -/
def joinLen (b : List String) : Nat :=
  (b.map String.length).sum + (b.length - 1)

/-- MAX_BATCH_BYTES: the source sets max_message_length to 35000. -/
def MAX_BATCH_BYTES : Nat := 35000

theorem flushBatchesAux_flatten (cap : Nat) (l : List String) :
    ∀ acc cur, (flushBatchesAux cap l acc cur).flatten = acc ++ l := by
  induction l with
  | nil =>
      intro acc cur
      by_cases h : acc = [] <;> simp [flushBatchesAux, h]
  | cons m rest ih =>
      intro acc cur
      by_cases h : cur + m.length + 1 > cap
      · simp [flushBatchesAux, h, ih]
      · simp [flushBatchesAux, h, ih]

/-- Round trip at the message level: the batches of one flush, flattened in
order, are exactly the drained messages. -/
theorem flushBatches_flatten (cap : Nat) (msgs : List String) :
    (flushBatches cap msgs).flatten = msgs := by
  simpa using flushBatchesAux_flatten cap msgs [] 0

theorem flushBatchesAux_join_le (cap : Nat) (l : List String) :
    ∀ acc cur, (acc ≠ [] → joinLen acc ≤ cur) → (2 ≤ acc.length → cur ≤ cap) →
      ∀ b ∈ flushBatchesAux cap l acc cur, 2 ≤ b.length → joinLen b ≤ cap := by
  induction l with
  | nil =>
      intro acc cur h1 h2 b hb hlen
      by_cases h : acc = []
      · simp [flushBatchesAux, h] at hb
      · simp [flushBatchesAux, h] at hb
        subst hb
        exact le_trans (h1 h) (h2 hlen)
  | cons m rest ih =>
      intro acc cur h1 h2 b hb hlen
      by_cases h : cur + m.length + 1 > cap
      · simp [flushBatchesAux, h] at hb
        rcases hb with hb | hb
        · subst hb
          exact le_trans (h1 (by rintro rfl; simp at hlen)) (h2 hlen)
        · refine ih [m] m.length ?_ ?_ b hb hlen
          · intro _; simp [joinLen]
          · intro habs; simp at habs
      · simp [flushBatchesAux, h] at hb
        refine ih (acc ++ [m]) (cur + m.length + 1) ?_ ?_ b hb hlen
        · intro _
          by_cases hacc : acc = []
          · subst hacc
            simp only [joinLen, List.nil_append, List.map_cons, List.map_nil,
              List.sum_cons, List.sum_nil, List.length_cons, List.length_nil]
            omega
          · have hj := h1 hacc
            have hlacc : 1 ≤ acc.length := List.length_pos.mpr hacc
            simp only [joinLen, List.map_append, List.sum_append, List.length_append,
              List.map_cons, List.map_nil, List.sum_cons, List.sum_nil,
              List.length_cons, List.length_nil] at hj ⊢
            omega
        · intro _
          omega

/-- Cap respecting for multi-message batches: each batch of at least two
messages has serialized size, separators included, at most the cap. -/
theorem flushBatches_join_le (cap : Nat) (msgs : List String) :
    ∀ b ∈ flushBatches cap msgs, 2 ≤ b.length → joinLen b ≤ cap := by
  intro b hb hlen
  refine flushBatchesAux_join_le cap msgs [] 0 ?_ ?_ b hb hlen
  · intro h; exact absurd rfl h
  · intro h; simp at h

theorem flushBatchesAux_sum_le (cap : Nat) (l : List String) :
    ∀ acc cur, (acc ≠ [] → sumLenPlus1 acc ≤ cur + 1) → (2 ≤ acc.length → cur ≤ cap) →
      ∀ b ∈ flushBatchesAux cap l acc cur, 2 ≤ b.length → sumLenPlus1 b ≤ cap + 1 := by
  induction l with
  | nil =>
      intro acc cur h1 h2 b hb hlen
      by_cases h : acc = []
      · simp [flushBatchesAux, h] at hb
      · simp [flushBatchesAux, h] at hb
        subst hb
        exact le_trans (h1 h) (Nat.add_le_add_right (h2 hlen) 1)
  | cons m rest ih =>
      intro acc cur h1 h2 b hb hlen
      by_cases h : cur + m.length + 1 > cap
      · simp [flushBatchesAux, h] at hb
        rcases hb with hb | hb
        · subst hb
          exact le_trans (h1 (by rintro rfl; simp at hlen))
            (Nat.add_le_add_right (h2 hlen) 1)
        · refine ih [m] m.length ?_ ?_ b hb hlen
          · intro _; simp [sumLenPlus1]
          · intro habs; simp at habs
      · simp [flushBatchesAux, h] at hb
        refine ih (acc ++ [m]) (cur + m.length + 1) ?_ ?_ b hb hlen
        · intro _
          by_cases hacc : acc = []
          · subst hacc
            simp only [sumLenPlus1, List.nil_append, List.map_cons, List.map_nil,
              List.sum_cons, List.sum_nil]
            omega
          · have hs := h1 hacc
            simp only [sumLenPlus1, List.map_append, List.sum_append,
              List.map_cons, List.map_nil, List.sum_cons, List.sum_nil] at hs ⊢
            omega
        · intro _
          omega

/-- Batch byte accounting: each batch of at least two messages has
sum of len(m) + 1 over its members at most cap + 1. -/
theorem flushBatches_sum_le (cap : Nat) (msgs : List String) :
    ∀ b ∈ flushBatches cap msgs, 2 ≤ b.length → sumLenPlus1 b ≤ cap + 1 := by
  intro b hb hlen
  refine flushBatchesAux_sum_le cap msgs [] 0 ?_ ?_ b hb hlen
  · intro h; exact absurd rfl h
  · intro h; simp at h

/-! ## Log records and the context filter -/

/-- A log record of the logging framework, with the fields this module
reads or writes: logger name, numeric level, raw message, creation time,
and the two attributes ContextFilter adds.  The attributes are optional
because a fresh record does not carry them before the filter runs. -/
structure LogRecord where
  name : String
  levelno : Nat
  msg : String
  created : Nat
  space : Option String
  entrypoint : Option String
deriving Repr, DecidableEq

/-- ContextFilter: stores the configuration space and the entrypoint fixed
at construction. -/
structure ContextFilter where
  space : String
  entrypoint : String
deriving Repr, DecidableEq

/-- ContextFilter.filter: sets record.entrypoint and record.space to the
stored values and returns True.  The pair is the mutated record together
with the returned boolean. -/
def ContextFilter.filter (f : ContextFilter) (record : LogRecord) :
    LogRecord × Bool :=
  ({ record with entrypoint := some f.entrypoint, space := some f.space }, true)

/-! ## The stateful SlackHandler

The observable state of one SlackHandler instance: its construction
parameters, the message queue, the running flag of the delivery worker,
together with the trace of Notifier calls made (channel and text of each
chat_postMessage call, in call order) and the fallback lines printed on a
caught SlackApiError.  The Slack WebClient is the external Notifier; its
behaviour is an oracle mapping each posted text to the outcome of the
call. -/

structure SlackHandlerState where
  channel : String
  send_interval : Nat
  max_message_length : Nat
  message_queue : List String
  running : Bool
  posted : List (String × String)
  fallback : List String
deriving Repr, DecidableEq

namespace SlackHandler

/-- SlackHandler constructor: channel stored, send_interval 1,
max_message_length 35000, empty queue, worker running.  No Notifier call
is made at construction. -/
def init (channel : String) : SlackHandlerState :=
  { channel := channel
    send_interval := 1
    max_message_length := 35000
    message_queue := []
    running := true
    posted := []
    fallback := [] }

/-- The line printed to standard output when a SlackApiError is caught in
_send_messages_to_slack. -/
def fallbackLine (e : String) : String :=
  "Failed to send log to Slack: " ++ e

/-- SlackHandler._send_messages_to_slack: joins the messages with a newline,
attempts one chat_postMessage call, and on SlackApiError prints the
fallback line; the error does not escape. -/
def send_messages_to_slack (res : String → SlackResult)
    (st : SlackHandlerState) (messages : List String) : SlackHandlerState :=
  let message := String.intercalate "\n" messages
  match res message with
  | .ok => { st with posted := st.posted ++ [(st.channel, message)] }
  | .apiError e =>
      { st with posted := st.posted ++ [(st.channel, message)]
                fallback := st.fallback ++ [fallbackLine e] }

/-- The while loop of SlackHandler.flush with its state effects: the
arguments are the not yet drained part of the queue, the accumulated batch
(messages), its running length (current_length), and the handler state. -/
def flushLoop (res : String → SlackResult) (cap : Nat) :
    List String → List String → Nat → SlackHandlerState → SlackHandlerState
  | [], acc, _, st =>
      if acc = [] then st else send_messages_to_slack res st acc
  | m :: rest, acc, cur, st =>
      if cur + m.length + 1 > cap then
        flushLoop res cap rest [m] m.length (send_messages_to_slack res st acc)
      else
        flushLoop res cap rest (acc ++ [m]) (cur + m.length + 1) st

/-- SlackHandler.flush: drains the queue through the batching loop and
hands each batch to _send_messages_to_slack. -/
def flush (res : String → SlackResult) (st : SlackHandlerState) : SlackHandlerState :=
  flushLoop res st.max_message_length st.message_queue [] 0
    { st with message_queue := [] }

/-- SlackHandler.emit: a record whose logger name is bagit is dropped;
any other record is formatted and appended to the tail of the queue. -/
def emit (fmt : LogRecord → String) (record : LogRecord)
    (st : SlackHandlerState) : SlackHandlerState :=
  if record.name ≠ "bagit" then
    { st with message_queue := st.message_queue ++ [fmt record] }
  else st

/-- SlackHandler.close: clears the running flag (which makes the periodic
loop exit and lets the worker thread be joined), then performs one final
synchronous flush. -/
def close (res : String → SlackResult) (st : SlackHandlerState) : SlackHandlerState :=
  flush res { st with running := false }

/-- One wake of SlackHandler._send_logs_periodically: while the running
flag holds, each wake flushes; once it is cleared the loop exits. -/
def periodicStep (res : String → SlackResult) (st : SlackHandlerState) : SlackHandlerState :=
  if st.running then flush res st else st

/-- The fallback lines produced by a sequence of posted texts under a given
Notifier oracle: one line per failed call, in call order. -/
def fallbackLines (res : String → SlackResult) (texts : List String) : List String :=
  texts.filterMap fun t =>
    match res t with
    | .ok => none
    | .apiError e => some (fallbackLine e)

end SlackHandler

/-! ## Logger setup -/

/-- logging.DEBUG in the Python standard library. -/
def DEBUG : Nat := 10

/-- logging.INFO in the Python standard library. -/
def INFO : Nat := 20

/-- Python truthiness of an optional string: None and the empty string are
falsy, every other string is truthy.  This is the test the source applies
to slack_token and slack_channel. -/
def truthy : Option String → Bool
  | none => false
  | some s => !(s == "")

/-- The kinds of handler setup_logging can attach to the root logger. -/
inductive HandlerKind where
  | stream
  | timedRotatingFile
  | slack
deriving Repr, DecidableEq

/-- One handler as configured by setup_logging: its kind and the minimum
severity set on it. -/
structure HandlerCfg where
  kind : HandlerKind
  level : Nat
deriving Repr, DecidableEq

/-- The root logger as configured by setup_logging: its own level, its
filter, and the attached handlers in attachment order. -/
structure LoggerCfg where
  level : Nat
  filters : List ContextFilter
  handlers : List HandlerCfg
deriving Repr, DecidableEq

/-- The configuration surface of IngestLogger, with the kwargs defaults of
its constructor. -/
structure IngestLogger where
  debug : Bool := false
  logfile : Option String := none
  rotation_days : Nat := 30
  backup_count : Nat := 10
  slack_token : Option String := none
  slack_channel : Option String := none
  config_space : String := "DEV"
  entrypoint : String := "NULL"
deriving Repr, DecidableEq

/-- IngestLogger.setup_logging: picks DEBUG or INFO from the debug flag,
attaches the context filter to the root logger, always adds a stdout
stream handler and a timed rotating file handler at that level, and adds a
SlackHandler at level INFO exactly when slack_token and slack_channel are
both truthy. -/
def IngestLogger.setup_logging (cfg : IngestLogger) : LoggerCfg :=
  let log_level := if cfg.debug then DEBUG else INFO
  let extra_filter : ContextFilter :=
    { space := cfg.config_space, entrypoint := cfg.entrypoint }
  { level := log_level
    filters := [extra_filter]
    handlers :=
      [ { kind := .stream, level := log_level }
      , { kind := .timedRotatingFile, level := log_level } ] ++
      (if truthy cfg.slack_token && truthy cfg.slack_channel then
        [ { kind := .slack, level := INFO } ]
      else []) }

/-- The level gate of the logging framework (external collaborator,
modelled per its documented contract): a handler processes a record only
when the record level is at least the handler minimum severity. -/
def handlerProcesses (h : HandlerCfg) (r : LogRecord) : Bool :=
  decide (h.level ≤ r.levelno)

/-! ## Characterization of the flush state effects -/

theorem send_messages_to_slack_spec (res : String → SlackResult)
    (st : SlackHandlerState) (messages : List String) :
    (SlackHandler.send_messages_to_slack res st messages).posted
        = st.posted ++ [(st.channel, batchText messages)]
    ∧ (SlackHandler.send_messages_to_slack res st messages).fallback
        = st.fallback ++ SlackHandler.fallbackLines res [batchText messages]
    ∧ (SlackHandler.send_messages_to_slack res st messages).running = st.running
    ∧ (SlackHandler.send_messages_to_slack res st messages).message_queue
        = st.message_queue
    ∧ (SlackHandler.send_messages_to_slack res st messages).channel = st.channel := by
  cases hres : res (String.intercalate "\n" messages) <;>
    simp [SlackHandler.send_messages_to_slack, SlackHandler.fallbackLines,
      batchText, hres]

theorem flushLoop_spec (res : String → SlackResult) (cap : Nat) (l : List String) :
    ∀ acc cur st,
      (SlackHandler.flushLoop res cap l acc cur st).posted
          = st.posted ++ (flushBatchesAux cap l acc cur).map
              (fun b => (st.channel, batchText b))
      ∧ (SlackHandler.flushLoop res cap l acc cur st).fallback
          = st.fallback ++ SlackHandler.fallbackLines res
              ((flushBatchesAux cap l acc cur).map batchText)
      ∧ (SlackHandler.flushLoop res cap l acc cur st).running = st.running
      ∧ (SlackHandler.flushLoop res cap l acc cur st).message_queue
          = st.message_queue := by
  induction l with
  | nil =>
      intro acc cur st
      by_cases h : acc = []
      · simp [SlackHandler.flushLoop, flushBatchesAux, h,
          SlackHandler.fallbackLines]
      · obtain ⟨h1, h2, h3, h4, _⟩ := send_messages_to_slack_spec res st acc
        simp [SlackHandler.flushLoop, flushBatchesAux, h, h1, h2, h3, h4]
  | cons m rest ih =>
      intro acc cur st
      by_cases h : cur + m.length + 1 > cap
      · obtain ⟨h1, h2, h3, h4, h5⟩ := send_messages_to_slack_spec res st acc
        obtain ⟨g1, g2, g3, g4⟩ :=
          ih [m] m.length (SlackHandler.send_messages_to_slack res st acc)
        simp only [SlackHandler.flushLoop, flushBatchesAux, h, if_pos]
        refine ⟨?_, ?_, ?_, ?_⟩
        · rw [g1, h1, h5]
          simp [List.append_assoc]
        · rw [g2, h2]
          simp only [SlackHandler.fallbackLines, List.map_cons, List.filterMap_cons,
            List.filterMap_map, List.filterMap_nil, List.append_assoc]
          cases res (batchText acc) <;> simp [Function.comp]
        · rw [g3, h3]
        · rw [g4, h4]
      · obtain ⟨g1, g2, g3, g4⟩ := ih (acc ++ [m]) (cur + m.length + 1) st
        simp only [SlackHandler.flushLoop, flushBatchesAux, h, if_neg]
        exact ⟨g1, g2, g3, g4⟩

/-- The state effect of SlackHandler.flush: the queue is emptied, one
Notifier call is made per batch of flushBatches in order with the joined
text on the stored channel, each failed call appends its fallback line,
and the running flag is untouched. -/
theorem flush_spec (res : String → SlackResult) (st : SlackHandlerState) :
    (SlackHandler.flush res st).posted
        = st.posted ++ (flushBatches st.max_message_length st.message_queue).map
            (fun b => (st.channel, batchText b))
    ∧ (SlackHandler.flush res st).fallback
        = st.fallback ++ SlackHandler.fallbackLines res
            ((flushBatches st.max_message_length st.message_queue).map batchText)
    ∧ (SlackHandler.flush res st).running = st.running
    ∧ (SlackHandler.flush res st).message_queue = [] := by
  obtain ⟨h1, h2, h3, h4⟩ :=
    flushLoop_spec res st.max_message_length st.message_queue [] 0
      { st with message_queue := [] }
  exact ⟨h1, h2, h3, h4⟩

/-! ## Concrete messages used for evaluation at the 35000-byte cap -/

/-- A single message one byte longer than MAX_BATCH_BYTES. -/
def bigMsg : String := String.mk (List.replicate 35001 'a')

/-- A message of length 34999, one separator short of the cap. -/
def msgA : String := String.mk (List.replicate 34999 'a')

/-- A message of length 34998. -/
def msgC : String := String.mk (List.replicate 34998 'c')

theorem bigMsg_length : bigMsg.length = 35001 := by
  show (List.replicate 35001 'a').length = 35001
  exact List.length_replicate 35001 'a'

theorem msgA_length : msgA.length = 34999 := by
  show (List.replicate 34999 'a').length = 34999
  exact List.length_replicate 34999 'a'

theorem msgC_length : msgC.length = 34998 := by
  show (List.replicate 34998 'c').length = 34998
  exact List.length_replicate 34998 'c'

/-! ## The claims -/

/-- C1. The claim states that the batches of a flush always reconstruct the
drained sequence and that a single message longer than the cap yields
exactly one oversized single-message batch.  The code disagrees at that
very input: when the first drained message already overflows the cap, the
overflow branch of the loop fires while the accumulated batch is still
empty and hands that empty batch to the Notifier, so a lone 35001-byte
message produces two chat_postMessage calls, the first with empty text,
and the separator-joined concatenation of the posted texts gains a
spurious leading newline.  This theorem evaluates the code at that
failing input. -/
theorem oversizeFirstMessage_extra_empty_post :
    flushBatches MAX_BATCH_BYTES [bigMsg] = [[], [bigMsg]]
    ∧ (flushBatches MAX_BATCH_BYTES [bigMsg]).map batchText = ["", bigMsg]
    ∧ (flushBatches MAX_BATCH_BYTES [bigMsg]).length = 2 := by
  have h : flushBatches MAX_BATCH_BYTES [bigMsg] = [[], [bigMsg]] := by
    simp only [flushBatches, flushBatchesAux, bigMsg_length, MAX_BATCH_BYTES]
    norm_num
  refine ⟨h, ?_, by rw [h]; rfl⟩
  rw [h]
  rfl

/-- C2. For every handler state, close clears the running flag (the stop
signal the worker loop observes before it is joined) and then performs one
final synchronous flush, so when close returns the queue is empty, the
Notifier calls appended by close are exactly the batches assembled from
the pre-close queue, in order, and those batches flatten back to the
pre-close queue: every message enqueued before close is handed to the
Notifier exactly once, in enqueue order. -/
theorem close_drains_all (res : String → SlackResult) (st : SlackHandlerState) :
    (SlackHandler.close res st).running = false
    ∧ (SlackHandler.close res st).message_queue = []
    ∧ (SlackHandler.close res st).posted
        = st.posted ++ (flushBatches st.max_message_length st.message_queue).map
            (fun b => (st.channel, batchText b))
    ∧ (flushBatches st.max_message_length st.message_queue).flatten
        = st.message_queue := by
  obtain ⟨h1, _, h3, h4⟩ := flush_spec res { st with running := false }
  exact ⟨h3, h4, h1, flushBatches_flatten _ _⟩

/-- C3. For every Notifier oracle and every handler state: the texts flush
hands to the Notifier are exactly the assembled batches in order,
independent of which calls fail, so a failed batch never aborts the
remaining batches; each failed call appends exactly its fallback line,
tagged with the detail the Notifier supplied, to the local fallback
output; the running flag is untouched, so the worker keeps running; and
flush is a total function on states, so nothing propagates to
producers. -/
theorem flush_failure_isolated (res : String → SlackResult) (st : SlackHandlerState) :
    (SlackHandler.flush res st).posted
        = st.posted ++ (flushBatches st.max_message_length st.message_queue).map
            (fun b => (st.channel, batchText b))
    ∧ (SlackHandler.flush res st).fallback
        = st.fallback ++ SlackHandler.fallbackLines res
            ((flushBatches st.max_message_length st.message_queue).map batchText)
    ∧ (SlackHandler.flush res st).running = st.running :=
  ⟨(flush_spec res st).1, (flush_spec res st).2.1, (flush_spec res st).2.2.1⟩

/-- C4 counterexample. At the 35000-byte cap, drain three messages of
lengths 34999, 1 and 34998.  The first fills one batch with running
length 35000; the second overflows, closing that batch, and restarts the
accumulator with running length 1 rather than 2; the third then fits,
so the second handed batch holds two messages whose len plus one sum is
35001, exceeding MAX_BATCH_BYTES and refuting the claimed bound. -/
theorem batch_sum_cap_cex :
    flushBatches MAX_BATCH_BYTES [msgA, "b", msgC] = [[msgA], ["b", msgC]]
    ∧ 2 ≤ ([("b" : String), msgC] : List String).length
    ∧ sumLenPlus1 ["b", msgC] = MAX_BATCH_BYTES + 1 := by
  have hb : ("b" : String).length = 1 := by decide
  refine ⟨?_, by norm_num, ?_⟩
  · simp only [flushBatches, flushBatchesAux, msgA_length, msgC_length, hb,
      MAX_BATCH_BYTES]
    norm_num
    simp
  · simp [sumLenPlus1, msgC_length, hb, MAX_BATCH_BYTES]

/-- C4 as amended. Every batch handed to the Notifier by flush that holds
at least two messages satisfies sum of len(m) + 1 over the batch at most
MAX_BATCH_BYTES + 1; a single-message batch may exceed any bound and is
still delivered on its own. -/
theorem batch_sum_le_cap_succ (msgs : List String) (b : List String)
    (hb : b ∈ flushBatches MAX_BATCH_BYTES msgs) (hlen : 2 ≤ b.length) :
    sumLenPlus1 b ≤ MAX_BATCH_BYTES + 1 :=
  flushBatches_sum_le MAX_BATCH_BYTES msgs b hb hlen

/-- Witness for the amended C4 at a concrete input. -/
theorem batch_sum_le_cap_succ_witness :
    (["aaa", "bbb"] : List String) ∈ flushBatches MAX_BATCH_BYTES ["aaa", "bbb"]
    ∧ 2 ≤ (["aaa", "bbb"] : List String).length
    ∧ sumLenPlus1 ["aaa", "bbb"] ≤ MAX_BATCH_BYTES + 1 :=
  ⟨by decide, by decide,
    batch_sum_le_cap_succ ["aaa", "bbb"] ["aaa", "bbb"] (by decide) (by decide)⟩

/-- C5. Every batch assembled by flush at the 35000-byte cap that holds at
least two messages has serialized size, counted as the sum of the message
lengths plus one separator byte between consecutive messages, at most the
cap; only single-message batches may exceed it. -/
theorem batch_join_le_cap (msgs : List String) (b : List String)
    (hb : b ∈ flushBatches MAX_BATCH_BYTES msgs) (hlen : 2 ≤ b.length) :
    joinLen b ≤ MAX_BATCH_BYTES :=
  flushBatches_join_le MAX_BATCH_BYTES msgs b hb hlen

/-- Witness for C5 at a concrete input. -/
theorem batch_join_le_cap_witness :
    (["aaa", "bbb"] : List String) ∈ flushBatches MAX_BATCH_BYTES ["aaa", "bbb"]
    ∧ 2 ≤ (["aaa", "bbb"] : List String).length
    ∧ joinLen ["aaa", "bbb"] ≤ MAX_BATCH_BYTES :=
  ⟨by decide, by decide,
    batch_join_le_cap ["aaa", "bbb"] ["aaa", "bbb"] (by decide) (by decide)⟩

/-- C6. With the cap set to 10 and the queue holding aaa, bbb, ccccccc,
flush makes exactly two Notifier calls, in order: first one posting the
first two messages joined by a newline, then one posting the third
message alone, both on the stored channel, whatever the call outcomes
are. -/
theorem concrete_scenario_two_posts (res : String → SlackResult) :
    (SlackHandler.flush res
        { SlackHandler.init "chan" with
            max_message_length := 10
            message_queue := ["aaa", "bbb", "ccccccc"] }).posted
      = [("chan", "aaa\nbbb"), ("chan", "ccccccc")] := by
  rw [(flush_spec res _).1]
  rfl

/-- C7. ContextFilter.filter always returns True, sets the space and
entrypoint attributes of the record to the values fixed at construction,
is idempotent in the strong sense that a second application returns
exactly the same record and boolean, and leaves every other record field
unchanged. -/
theorem filter_sets_tags_and_idempotent (f : ContextFilter) (record : LogRecord) :
    (f.filter record).2 = true
    ∧ (f.filter record).1.space = some f.space
    ∧ (f.filter record).1.entrypoint = some f.entrypoint
    ∧ f.filter (f.filter record).1 = f.filter record
    ∧ (f.filter record).1.name = record.name
    ∧ (f.filter record).1.levelno = record.levelno
    ∧ (f.filter record).1.msg = record.msg
    ∧ (f.filter record).1.created = record.created := by
  simp [ContextFilter.filter]

/-- C8. For every configuration, setup_logging attaches a Slack handler
exactly when slack_token and slack_channel are both truthy, and it always
attaches the stdout stream handler and the timed rotating file handler at
the level selected by the debug flag.  Absence of the Slack handler is
absence of the SlackHandler construction, hence no worker start. -/
theorem setup_slack_iff_present (cfg : IngestLogger) :
    ((cfg.setup_logging.handlers.any fun h => h.kind == HandlerKind.slack)
        = (truthy cfg.slack_token && truthy cfg.slack_channel))
    ∧ HandlerCfg.mk HandlerKind.stream (if cfg.debug then DEBUG else INFO)
        ∈ cfg.setup_logging.handlers
    ∧ HandlerCfg.mk HandlerKind.timedRotatingFile (if cfg.debug then DEBUG else INFO)
        ∈ cfg.setup_logging.handlers := by
  by_cases h : truthy cfg.slack_token && truthy cfg.slack_channel <;>
    simp [IngestLogger.setup_logging, h]

/-- C9. SlackHandler.emit drops a record whose logger name is bagit,
leaving the whole handler state, in particular the message queue,
unchanged, so nothing is ever delivered for it; for any other record it
appends exactly the one formatted message to the tail of the queue and
changes nothing else. -/
theorem emit_bagit_dropped (fmt : LogRecord → String) (record : LogRecord)
    (st : SlackHandlerState) :
    if record.name = "bagit" then
      SlackHandler.emit fmt record st = st
    else
      SlackHandler.emit fmt record st
        = { st with message_queue := st.message_queue ++ [fmt record] } := by
  by_cases h : record.name = "bagit" <;> simp [SlackHandler.emit, h]

/-- C10. For every configuration, every Slack handler setup_logging
attaches has minimum severity INFO, independent of the debug flag, while
the root logger, the stream handler and the rotating file handler get
DEBUG exactly when debug is true; and under the level gate of the logging
framework a record at level DEBUG is never processed by a handler at
level INFO, so DEBUG records are never enqueued for notification
delivery. -/
theorem slack_level_fixed_info (cfg : IngestLogger) (record : LogRecord) :
    ((cfg.setup_logging.handlers.filter fun h => h.kind == HandlerKind.slack).all
        fun h => h.level == INFO) = true
    ∧ cfg.setup_logging.level = (if cfg.debug then DEBUG else INFO)
    ∧ HandlerCfg.mk HandlerKind.stream (if cfg.debug then DEBUG else INFO)
        ∈ cfg.setup_logging.handlers
    ∧ HandlerCfg.mk HandlerKind.timedRotatingFile (if cfg.debug then DEBUG else INFO)
        ∈ cfg.setup_logging.handlers
    ∧ handlerProcesses (HandlerCfg.mk HandlerKind.slack INFO)
        { record with levelno := DEBUG } = false := by
  refine ⟨?_, ?_, ?_, ?_, by simp [handlerProcesses, DEBUG, INFO]⟩ <;>
    by_cases h : truthy cfg.slack_token && truthy cfg.slack_channel <;>
      simp [IngestLogger.setup_logging, h, INFO]

end IngestLoggerModel
